import Mathlib

/-!
Verification of the must-gather plan builder
(`pkg/toolsets/core/mustgather.go` and `pkg/toolsets/core/must_gather_plan.go`).

The Go code is shallowly embedded: each local variable / helper of the Go
source becomes a Lean definition with the same name where possible.  Machine
integers are `Nat` with explicit `2 ^ 63` bounds where the Go `uint64`
overflow checks matter.  External collaborators (the YAML marshaller
`sigs.k8s.io/yaml`, the namespace-listing client) are modelled by explicit
executable functions / parameters.
-/

namespace MustGather

/-! ### Generic string-search helpers (used to state render properties) -/

/-- Whether `sub` is a prefix of `s` (char lists). -/
def chStarts : List Char → List Char → Bool
  | [], _ => true
  | _ :: _, [] => false
  | a :: as, b :: bs => a == b && chStarts as bs

/-- Whether `sub` occurs as a contiguous substring of `s` (char lists). -/
def chFound (sub : List Char) : List Char → Bool
  | [] => chStarts sub []
  | s@(_ :: rest) => chStarts sub s || chFound sub rest

/-- Whether the string `sub` occurs as a contiguous substring of `s`. -/
def strHas (s sub : String) : Bool := chFound sub.data s.data

/-! ### Model of Go `path.Clean` (used on `source_dir`) -/

/-- Splits a char list at every `'/'` (the path-component view Go
`path.Clean` walks over). -/
def splitSlash : List Char → List (List Char)
  | [] => [[]]
  | c :: rest =>
    if c = '/' then [] :: splitSlash rest
    else
      match splitSlash rest with
      | h :: t => (c :: h) :: t
      | [] => [[c]]

/-- Joins path components back with `'/'` separators. -/
def joinSlash : List (List Char) → List Char
  | [] => []
  | [x] => x
  | x :: xs => x ++ '/' :: joinSlash xs

/-- Processes the nonempty, non-`"."` path components, resolving `".."`
exactly as Go `path.Clean` does.  The accumulator holds the output
components in reverse order. -/
def cleanComps (rooted : Bool) (acc : List (List Char)) :
    List (List Char) → List (List Char)
  | [] => acc
  | c :: rest =>
    if c = ['.', '.'] then
      match acc with
      | [] => cleanComps rooted (if rooted then [] else [['.', '.']]) rest
      | x :: tl =>
        if x = ['.', '.'] then cleanComps rooted (c :: acc) rest
        else cleanComps rooted tl rest
    else cleanComps rooted (c :: acc) rest

/-- Model of Go `path.Clean`: collapses repeated separators, eliminates `.`
and `..` elements, drops trailing slashes, returns `"."` for an empty
result. -/
def cleanPath (p : String) : String :=
  if p = "" then "." else
  let cs := p.data
  let rooted : Bool := match cs with | '/' :: _ => true | _ => false
  let comps := (splitSlash cs).filter (fun c => c != [] && c != ['.'])
  let parts := (cleanComps rooted [] comps).reverse
  let joined := joinSlash parts
  if rooted then ⟨'/' :: joined⟩
  else if joined = [] then "." else ⟨joined⟩

/-! ### Model of Go `time.ParseDuration` (only its success / failure and the
sign matter to the planner: the parsed value is discarded by the source). -/

def isDigitCh (c : Char) : Bool := '0' ≤ c && c ≤ '9'

/-- Model of Go `leadingInt`: consumes leading digits into a `uint64`,
failing on overflow past `2 ^ 63`. -/
def leadingIntAux (x : Nat) : List Char → Option (Nat × List Char)
  | [] => some (x, [])
  | c :: rest =>
    if isDigitCh c then
      if x > 2 ^ 63 / 10 then none
      else
        let y := x * 10 + (c.toNat - '0'.toNat)
        if y > 2 ^ 63 then none
        else leadingIntAux y rest
    else some (x, c :: rest)

/-- Model of Go `leadingFraction`: consumes digits after a decimal point,
silently stopping the accumulation (but not the consumption) on overflow.
Returns the digit value, the scale (a power of ten) and the rest. -/
def leadingFractionAux (x scale : Nat) (overflow : Bool) :
    List Char → Nat × Nat × List Char
  | [] => (x, scale, [])
  | c :: rest =>
    if isDigitCh c then
      if overflow then leadingFractionAux x scale overflow rest
      else if x > (2 ^ 63 - 1) / 10 then leadingFractionAux x scale true rest
      else
        let y := x * 10 + (c.toNat - '0'.toNat)
        if y > 2 ^ 63 then leadingFractionAux x scale true rest
        else leadingFractionAux y (scale * 10) false rest
    else (x, scale, c :: rest)

/-- Length of the unit token: chars until the next digit or `'.'`. -/
def unitLen : List Char → Nat
  | [] => 0
  | c :: rest => if c = '.' || isDigitCh c then 0 else unitLen rest + 1

/-- The Go `unitMap`: duration units in nanoseconds. -/
def unitMap (u : List Char) : Option Nat :=
  if u = ['n', 's'] then some 1
  else if u = ['u', 's'] then some 1000
  else if u = ['µ', 's'] then some 1000
  else if u = ['μ', 's'] then some 1000
  else if u = ['m', 's'] then some 1000000
  else if u = ['s'] then some 1000000000
  else if u = ['m'] then some 60000000000
  else if u = ['h'] then some 3600000000000
  else none

/-- The main loop of Go `ParseDuration` over the remaining input, with the
accumulated nanoseconds `d`.  The fraction contribution is computed with
exact natural-number division in place of the Go `float64` arithmetic, which
only matters for sub-nanosecond rounding of the (discarded) value.  `fuel`
bounds the recursion; each Go loop iteration consumes at least one
character, so `fuel = length + 1` never runs out. -/
def durLoop : Nat → Nat → List Char → Option Nat
  | 0, _, _ => none
  | _ + 1, d, [] => some d
  | fuel + 1, d, s@(c :: _) =>
    if ¬(c = '.' || isDigitCh c) then none
    else
      match leadingIntAux 0 s with
      | none => none
      | some (v, s1) =>
        let pre : Bool := s1.length != s.length
        let (f, scale, s2, post) :=
          match s1 with
          | '.' :: s1' =>
            let (f, sc, s2) := leadingFractionAux 0 1 false s1'
            (f, sc, s2, (s2.length != s1'.length : Bool))
          | _ => (0, 1, s1, (false : Bool))
        if !pre && !post then none
        else
          let i := unitLen s2
          if i = 0 then none
          else
            match unitMap (s2.take i) with
            | none => none
            | some unit =>
              if v > 2 ^ 63 / unit then none
              else
                let v1 := v * unit
                let v2 := if f > 0 then v1 + f * unit / scale else v1
                if f > 0 && v2 > 2 ^ 63 then none
                else
                  let d1 := d + v2
                  if d1 > 2 ^ 63 then none
                  else durLoop fuel d1 (s2.drop i)

/-- Model of Go `time.ParseDuration`, returning the signed nanosecond value
on success and `none` on any parse or overflow error. -/
def goParseDuration (s : String) : Option Int :=
  let cs := s.data
  let (neg, cs1) :=
    match cs with
    | '-' :: rest => (true, rest)
    | '+' :: rest => (false, rest)
    | _ => (false, cs)
  if cs1 = ['0'] then some 0
  else if cs1 = [] then none
  else
    match durLoop (cs1.length + 1) 0 cs1 with
    | none => none
    | some d =>
      if neg then some (-(d : Int))
      else if d > 2 ^ 63 - 1 then none
      else some (d : Int)

/-- The planner only consumes the success / failure of duration parsing. -/
def goParseDurationOk (s : String) : Bool := (goParseDuration s).isSome

/-! ### Kubernetes resource descriptors (the fields the planner sets).
Go zero values are the empty string / empty list / `false`; json
`omitempty` semantics are reflected in the marshal model below. -/

structure EnvVar where
  name : String
  value : String
  deriving Repr, DecidableEq

structure VolumeMount where
  name : String
  mountPath : String
  deriving Repr, DecidableEq

structure Container where
  name : String
  image : String
  imagePullPolicy : String
  command : List String
  env : List EnvVar
  volumeMounts : List VolumeMount
  deriving Repr, DecidableEq

structure Toleration where
  operator : String
  deriving Repr, DecidableEq

/-- A volume; the only volume source the planner uses is `EmptyDir`. -/
structure Volume where
  name : String
  emptyDir : Bool
  deriving Repr, DecidableEq

structure TypeMeta where
  apiVersion : String
  kind : String
  deriving Repr, DecidableEq

/-- The `ObjectMeta` fields the planner populates (`namespace` is spelled
`nsName` because `namespace` is a Lean keyword). -/
structure ObjectMeta where
  name : String := ""
  generateName : String := ""
  nsName : String := ""
  deriving Repr, DecidableEq

structure PodSpec where
  serviceAccountName : String := ""
  nodeName : String := ""
  priorityClassName : String := ""
  restartPolicy : String := ""
  volumes : List Volume := []
  containers : List Container := []
  hostNetwork : Bool := false
  nodeSelector : List (String × String) := []
  tolerations : List Toleration := []
  deriving Repr, DecidableEq

structure Pod where
  typeMeta : TypeMeta := ⟨"", ""⟩
  metadata : ObjectMeta
  spec : PodSpec
  deriving Repr, DecidableEq

structure NamespaceObj where
  typeMeta : TypeMeta
  metadata : ObjectMeta
  deriving Repr, DecidableEq

structure ServiceAccountObj where
  typeMeta : TypeMeta
  metadata : ObjectMeta
  deriving Repr, DecidableEq

structure RoleRef where
  apiGroup : String
  kind : String
  name : String
  deriving Repr, DecidableEq

structure Subject where
  kind : String
  name : String
  nsName : String
  deriving Repr, DecidableEq

structure ClusterRoleBinding where
  typeMeta : TypeMeta
  metadata : ObjectMeta
  roleRef : RoleRef
  subjects : List Subject
  deriving Repr, DecidableEq

/-! ### `mustgather.go` constants (lines 23-29) -/

def defaultGatherSourceDir : String := "/must-gather/"
def defaultMustGatherImage : String :=
  "registry.redhat.io/openshift4/ose-must-gather:latest"
def defaultGatherCmd : String := "/usr/bin/gather"

/-! ### Parameter resolution (`mustGatherPlan`, lines 110-182) -/

/-- The typed view of the argument bag of the `plan_mustgather` tool: `none`
models an absent key (`args[k] == nil`). -/
structure Args where
  node_name : Option String := none
  node_selector : Option String := none
  host_network : Option Bool := none
  gather_command : Option String := none
  all_component_images : Option Bool := none
  images : Option (List String) := none
  source_dir : Option String := none
  timeout : Option String := none
  nsParam : Option String := none
  keep_namespace : Option Bool := none
  since : Option String := none
  deriving Repr, DecidableEq

/-- Go map insert semantics for the node-selector result map (an
association list; a duplicate key overwrites in place). -/
def mapInsert (m : List (String × String)) (k v : String) :
    List (String × String) :=
  if m.any (fun p => p.1 = k) then
    m.map (fun p => if p.1 = k then (k, v) else p)
  else m ++ [(k, v)]

/-- Go `strings.SplitN(s, "=", 2)`: split at the first `=` only. -/
def splitN2Eq (s : String) : List String :=
  match s.splitOn "=" with
  | [] => []
  | [k] => [k]
  | k :: rest => [k, String.intercalate "=" rest]

/-- `parseNodeSelector` (`mustgather.go` lines 381-391). -/
def parseNodeSelector (selector : String) : List (String × String) :=
  (selector.splitOn ",").foldl
    (fun result pair =>
      match splitN2Eq pair.trim with
      | [k, v] => mapInsert result k.trim v.trim
      | _ => result)
    []

/-- The resolved configuration: the values of the Go locals of
`mustGatherPlan` after lines 110-174 have run without an early return. -/
structure PlanConfig where
  nodeName : String := ""
  nodeSelector : List (String × String) := []
  hostNetwork : Bool := false
  sourceDir : String := defaultGatherSourceDir
  nsName : String := ""
  keepNamespace : Bool := false
  gatherCmd : String := defaultGatherCmd
  allImages : Bool := false
  images : List String := []
  timeout : String := ""
  since : String := ""
  deriving Repr, DecidableEq

/-- `timeout` handling (lines 156-165): validate, then wrap the gather
command. -/
def resolveGatherCmd (args : Args) : Except String String :=
  let gatherCmd := args.gather_command.getD defaultGatherCmd
  match args.timeout with
  | none => .ok gatherCmd
  | some t =>
    if goParseDurationOk t then
      .ok ("/usr/bin/timeout " ++ t ++ " " ++ gatherCmd)
    else .error "timeout duration is not valid"

/-- `since` handling (lines 167-174). -/
def resolveSince (args : Args) : Except String String :=
  match args.since with
  | none => .ok ""
  | some s =>
    if goParseDurationOk s then .ok s
    else .error "since duration is not valid"

/-- The parameter-resolution phase of `mustGatherPlan` (lines 110-174).
`suffix` stands in for `generateRandomString(6)`. -/
def resolvePlanConfig (args : Args) (suffix : String) :
    Except String PlanConfig :=
  match resolveGatherCmd args with
  | .error e => .error e
  | .ok gatherCmd =>
  match resolveSince args with
  | .error e => .error e
  | .ok since =>
  .ok
    { nodeName := args.node_name.getD ""
      nodeSelector :=
        match args.node_selector with
        | some s => parseNodeSelector s
        | none => []
      hostNetwork := args.host_network.getD false
      sourceDir :=
        match args.source_dir with
        | some s => cleanPath s
        | none => defaultGatherSourceDir
      nsName :=
        match args.nsParam with
        | some s => s
        | none => "openshift-must-gather-" ++ suffix
      keepNamespace := args.keep_namespace.getD false
      gatherCmd := gatherCmd
      allImages := args.all_component_images.getD false
      images := args.images.getD []
      timeout := args.timeout.getD ""
      since := since }

/-! ### Resource plan builder (`mustGatherPlan`, lines 176-252) -/

/-- `envVars` (lines 176-182): one `MUST_GATHER_SINCE` entry when `since`
was supplied. -/
def envVarsOf (cfg : PlanConfig) : List EnvVar :=
  if cfg.since ≠ "" then [⟨"MUST_GATHER_SINCE", cfg.since⟩] else []

/-- `gatherContainerTemplate` (lines 184-196). -/
def gatherContainerTemplate (cfg : PlanConfig) : Container :=
  { name := "gather"
    image := defaultMustGatherImage
    imagePullPolicy := "IfNotPresent"
    command := [cfg.gatherCmd]
    env := envVarsOf cfg
    volumeMounts := [⟨"must-gather-collection", cfg.sourceDir⟩] }

/-- A Go slice element assignment `xs[i] = a`: out-of-bounds indices make
the program panic, modelled as `none`. -/
def sliceSet (xs : List α) (i : Nat) (a : α) : Option (List α) :=
  if i < xs.length then some (xs.set i a) else none

/-- One iteration of the `for i, image := range images` loop (lines
200-203): `gatherContainers[i] = *tmpl.DeepCopy(); gatherContainers[i].Image
= image`. -/
def gcStep (tmpl : Container) (acc : List Container) (p : Nat × String) :
    Option (List Container) :=
  sliceSet acc p.1 { tmpl with image := p.2 }

/-- `gatherContainers` (lines 198-203): the slice is allocated with
`make([]corev1.Container, 1)` — length one — then index `i` is assigned for
every image, so any second image indexes out of bounds (`none`). -/
def buildGatherContainers (cfg : PlanConfig) : Option (List Container) :=
  (cfg.images.enum).foldlM (gcStep (gatherContainerTemplate cfg))
    [gatherContainerTemplate cfg]

def serviceAccountName : String := "must-gather-collector"

/-- The trailing keep-alive container (lines 232-243). -/
def waitContainer : Container :=
  { name := "wait"
    image := "registry.redhat.io/ubi9/ubi-minimal"
    imagePullPolicy := "IfNotPresent"
    command := ["/bin/bash", "-c", "sleep infinity"]
    env := []
    volumeMounts := [⟨"must-gather-collection", "/must-gather"⟩] }

/-- `pod` (lines 214-252). -/
def buildPod (cfg : PlanConfig) (gatherContainers : List Container) : Pod :=
  { typeMeta := ⟨"", ""⟩
    metadata := { generateName := "must-gather-", nsName := cfg.nsName }
    spec :=
      { serviceAccountName := serviceAccountName
        nodeName := cfg.nodeName
        priorityClassName := "system-cluster-critical"
        restartPolicy := "Never"
        volumes := [⟨"must-gather-collection", true⟩]
        containers := gatherContainers ++ [waitContainer]
        hostNetwork := cfg.hostNetwork
        nodeSelector := cfg.nodeSelector
        tolerations := [⟨"Exists"⟩] } }

/-- `namespaceObj` (lines 278-289). -/
def buildNamespaceObj (ns : String) : NamespaceObj :=
  { typeMeta := ⟨"v1", "Namespace"⟩
    metadata := { name := ns } }

/-- `serviceAccount` (lines 291-300). -/
def buildServiceAccount (ns : String) : ServiceAccountObj :=
  { typeMeta := ⟨"v1", "ServiceAccount"⟩
    metadata := { name := serviceAccountName, nsName := ns } }

/-- `clusterRoleBindingName` (line 302). -/
def clusterRoleBindingName (ns : String) : String :=
  "must-gather-collector-" ++ ns

/-- `clusterRoleBinding` (lines 303-323). -/
def buildClusterRoleBinding (ns : String) : ClusterRoleBinding :=
  { typeMeta := ⟨"rbac.authorization.k8s.io/v1", "ClusterRoleBinding"⟩
    metadata := { name := clusterRoleBindingName ns }
    roleRef := ⟨"rbac.authorization.k8s.io", "ClusterRole", "cluster-admin"⟩
    subjects := [⟨"ServiceAccount", serviceAccountName, ns⟩] }

/-! ### Model of the external YAML marshaller (`sigs.k8s.io/yaml`).
It serializes via the k8s JSON tags: keys alphabetical, `omitempty` fields
dropped when zero, `creationTimestamp` always rendered as `null`. -/

def marshalTypeMeta (tm : TypeMeta) : String :=
  (if tm.apiVersion ≠ "" then "apiVersion: " ++ tm.apiVersion ++ "\n" else "")
    ++ (if tm.kind ≠ "" then "kind: " ++ tm.kind ++ "\n" else "")

def marshalObjectMeta (m : ObjectMeta) : String :=
  "metadata:\n  creationTimestamp: null\n"
    ++ (if m.generateName ≠ "" then
          "  generateName: " ++ m.generateName ++ "\n" else "")
    ++ (if m.name ≠ "" then "  name: " ++ m.name ++ "\n" else "")
    ++ (if m.nsName ≠ "" then "  namespace: " ++ m.nsName ++ "\n" else "")

def marshalNamespace (n : NamespaceObj) : String :=
  marshalTypeMeta n.typeMeta ++ marshalObjectMeta n.metadata
    ++ "spec: {}\nstatus: {}\n"

def marshalServiceAccount (sa : ServiceAccountObj) : String :=
  marshalTypeMeta sa.typeMeta ++ marshalObjectMeta sa.metadata

def marshalSubject (s : Subject) : String :=
  "- kind: " ++ s.kind ++ "\n  name: " ++ s.name
    ++ "\n  namespace: " ++ s.nsName ++ "\n"

def marshalClusterRoleBinding (b : ClusterRoleBinding) : String :=
  marshalTypeMeta b.typeMeta ++ marshalObjectMeta b.metadata
    ++ "roleRef:\n  apiGroup: " ++ b.roleRef.apiGroup
    ++ "\n  kind: " ++ b.roleRef.kind
    ++ "\n  name: " ++ b.roleRef.name ++ "\n"
    ++ "subjects:\n" ++ String.join (b.subjects.map marshalSubject)

def marshalContainer (c : Container) : String :=
  "  - command:\n"
    ++ String.join (c.command.map (fun s => "    - " ++ s ++ "\n"))
    ++ (if c.env ≠ [] then
          "    env:\n"
            ++ String.join (c.env.map (fun e =>
                "    - name: " ++ e.name ++ "\n      value: "
                  ++ e.value ++ "\n"))
        else "")
    ++ "    image: " ++ c.image ++ "\n"
    ++ (if c.imagePullPolicy ≠ "" then
          "    imagePullPolicy: " ++ c.imagePullPolicy ++ "\n" else "")
    ++ "    name: " ++ c.name ++ "\n    resources: {}\n"
    ++ "    volumeMounts:\n"
    ++ String.join (c.volumeMounts.map (fun v =>
        "    - mountPath: " ++ v.mountPath ++ "\n      name: "
          ++ v.name ++ "\n"))

def marshalPodSpec (s : PodSpec) : String :=
  "spec:\n  containers:\n"
    ++ String.join (s.containers.map marshalContainer)
    ++ (if s.hostNetwork then "  hostNetwork: true\n" else "")
    ++ (if s.nodeName ≠ "" then "  nodeName: " ++ s.nodeName ++ "\n" else "")
    ++ (if s.nodeSelector ≠ [] then
          "  nodeSelector:\n"
            ++ String.join (s.nodeSelector.map (fun kv =>
                "    " ++ kv.1 ++ ": " ++ kv.2 ++ "\n"))
        else "")
    ++ (if s.priorityClassName ≠ "" then
          "  priorityClassName: " ++ s.priorityClassName ++ "\n" else "")
    ++ "  restartPolicy: " ++ s.restartPolicy ++ "\n"
    ++ "  serviceAccountName: " ++ s.serviceAccountName ++ "\n"
    ++ (if s.tolerations ≠ [] then
          "  tolerations:\n"
            ++ String.join (s.tolerations.map (fun t =>
                "  - operator: " ++ t.operator ++ "\n"))
        else "")
    ++ "  volumes:\n"
    ++ String.join (s.volumes.map (fun v =>
        "  - emptyDir: {}\n    name: " ++ v.name ++ "\n"))

def marshalPod (p : Pod) : String :=
  marshalTypeMeta p.typeMeta ++ marshalObjectMeta p.metadata
    ++ marshalPodSpec p.spec ++ "status: {}\n"

/-! ### Renderer (`mustGatherPlan`, lines 325-369) -/

/-- The instructional comment block (lines 326-336), including the blank
line written just before the fence. -/
def commentHeader (ns crbName : String) (keepNamespace : Bool) : String :=
  "# Save the following content to a file (e.g., must-gather-plan.yaml) and apply it with \x27kubectl apply -f must-gather-plan.yaml\x27\n"
    ++ "# Monitor the pod\x27s logs to see when the must-gather process is complete:\n"
    ++ "# kubectl logs -f -n " ++ ns ++ " <pod-name> -c gather\n"
    ++ "# Once the logs indicate completion, copy the results with:\n"
    ++ "# kubectl cp -n " ++ ns
    ++ " <pod-name>:/must-gather ./must-gather-output -c wait\n"
    ++ (if !keepNamespace then
          "# Finally, clean up the resources with:\n"
            ++ "# kubectl delete ns " ++ ns ++ "\n"
            ++ "# kubectl delete clusterrolebinding " ++ crbName ++ "\n"
        else "")
    ++ "\n"

/-- The YAML body (lines 337-367): the fence, then each marshalled
document.  A `---` marker is written before the Namespace (when present),
the ServiceAccount and the ClusterRoleBinding documents, and none before
the Pod document, exactly as in the source. -/
def renderPlan (cfg : PlanConfig) (namespaceExists : Bool)
    (gatherContainers : List Container) : String :=
  commentHeader cfg.nsName (clusterRoleBindingName cfg.nsName)
      cfg.keepNamespace
    ++ "```yaml"
    ++ (if !namespaceExists then
          "---\n" ++ marshalNamespace (buildNamespaceObj cfg.nsName)
        else "")
    ++ "---\n" ++ marshalServiceAccount (buildServiceAccount cfg.nsName)
    ++ "---\n"
    ++ marshalClusterRoleBinding (buildClusterRoleBinding cfg.nsName)
    ++ marshalPod (buildPod cfg gatherContainers)
    ++ "```"

/-- The possible results of a tool invocation. -/
inductive Outcome where
  /-- `api.NewToolCallResult(text, nil)`: success with the rendered text. -/
  | ok (text : String)
  /-- `api.NewToolCallResult("", err)`: a visible tool error result with
  empty content. -/
  | errResult (msg : String)
  /-- `return nil, err`: a hard (protocol-level) error. -/
  | goError (msg : String)
  /-- A Go runtime panic. -/
  | crash (msg : String)
  deriving Repr, DecidableEq

/-- The `plan_mustgather` handler `mustGatherPlan` (lines 109-370).
`suffix` stands in for the random namespace suffix and `nsListResult` for
the namespace-listing collaborator (the listed namespace names, or a
listing failure). -/
def mustGatherPlan (args : Args) (suffix : String)
    (nsListResult : Except String (List String)) : Outcome :=
  match resolvePlanConfig args suffix with
  | .error e => .errResult e
  | .ok cfg =>
    match buildGatherContainers cfg with
    | none => .crash "runtime error: index out of range"
    | some gatherContainers =>
      match nsListResult with
      | .error e => .errResult ("failed to list namespaces: " ++ e)
      | .ok names =>
        .ok (renderPlan cfg (names.contains cfg.nsName) gatherContainers)

/-! ### The second implementation: the `must_gather_plan` tool
(`must_gather_plan.go`, lines 17-190) -/

/-- The typed view of the arguments of the `must_gather_plan` tool; the Go
handler reads them with comma-ok assertions, so an absent key is the empty
string. -/
structure SimpleArgs where
  image : Option String := none
  dest_dir : Option String := none
  node_name : Option String := none
  image_stream : Option String := none
  deriving Repr, DecidableEq

/-- The `must_gather_plan` handler (`must_gather_plan.go` lines 44-188).
`suffix` stands in for `rand.String(5)`. -/
def mustGatherPlanSimple (args : SimpleArgs) (suffix : String) : Outcome :=
  let imageStream := args.image_stream.getD ""
  if imageStream ≠ "" then
    .goError
      "the --image-stream parameter is not yet supported. Please use the --image parameter"
  else
    let image0 := args.image.getD ""
    let image :=
      if image0 = "" then "registry.redhat.io/openshift4/ose-must-gather:latest"
      else image0
    let destDir0 := args.dest_dir.getD ""
    let destDir := if destDir0 = "" then "./must-gather-results" else destDir0
    let nodeName := args.node_name.getD ""
    let namespaceName := "openshift-must-gather-" ++ suffix
    let podName := "must-gather-" ++ suffix
    let saName := "must-gather-admin"
    let crbName := namespaceName ++ "-" ++ saName
    let nsObj : NamespaceObj :=
      { typeMeta := ⟨"v1", "Namespace"⟩, metadata := { name := namespaceName } }
    let sa : ServiceAccountObj :=
      { typeMeta := ⟨"v1", "ServiceAccount"⟩
        metadata := { name := saName, nsName := namespaceName } }
    let crb : ClusterRoleBinding :=
      { typeMeta := ⟨"rbac.authorization.k8s.io/v1", "ClusterRoleBinding"⟩
        metadata := { name := crbName }
        roleRef := ⟨"rbac.authorization.k8s.io", "ClusterRole", "cluster-admin"⟩
        subjects := [⟨"ServiceAccount", saName, namespaceName⟩] }
    let pod : Pod :=
      { typeMeta := ⟨"v1", "Pod"⟩
        metadata := { name := podName, nsName := namespaceName }
        spec :=
          { serviceAccountName := saName
            nodeName := nodeName
            restartPolicy := "Never"
            volumes := [⟨"must-gather-output", true⟩]
            containers :=
              [{ name := "must-gather"
                 image := image
                 imagePullPolicy := ""
                 command := ["/bin/sh", "-c", "/usr/bin/gather && sleep infinity"]
                 env := []
                 volumeMounts := [⟨"must-gather-output", "/must-gather"⟩] }] } }
    .ok
      ("# Save the following content to a file (e.g., must-gather-plan.yaml) and apply it with \x27kubectl apply -f must-gather-plan.yaml\x27\n"
        ++ "# Monitor the pod\x27s logs to see when the must-gather process is complete:\n"
        ++ "# kubectl logs -f -n " ++ namespaceName ++ " " ++ podName ++ "\n"
        ++ "# Once the logs indicate completion, copy the results with:\n"
        ++ "# kubectl cp -n " ++ namespaceName ++ " " ++ podName
        ++ ":/must-gather " ++ destDir ++ "\n"
        ++ "# Finally, clean up the resources with:\n"
        ++ "# kubectl delete ns " ++ namespaceName ++ "\n"
        ++ "# kubectl delete clusterrolebinding " ++ crbName ++ "\n"
        ++ "---\n" ++ marshalNamespace nsObj
        ++ "---\n" ++ marshalServiceAccount sa
        ++ "---\n" ++ marshalClusterRoleBinding crb
        ++ "---\n" ++ marshalPod pod)

/-! ### Outcome projections and concrete test inputs -/

def Outcome.isOk : Outcome → Bool
  | .ok _ => true
  | _ => false

def Outcome.text : Outcome → String
  | .ok t => t
  | _ => ""

/-- Two supplied images: the smallest input on which the gather-container
slice write `gatherContainers[1]` is out of bounds. -/
def argsTwoImages : Args :=
  { images := some ["registry.example.com/gather-a",
                    "registry.example.com/gather-b"] }

/-- A resolved configuration with three images. -/
def cfgThreeImages : PlanConfig :=
  { nsName := "c2-ns", images := ["img-a", "img-b", "img-c"] }

/-- A user-supplied namespace, no other parameters. -/
def argsFixedNs : Args := { nsParam := some "c3-ns" }

/-- The configuration `argsFixedNs` resolves to. -/
def cfgFixedNs : PlanConfig := { nsName := "c3-ns" }

/-- A custom `source_dir` together with a fixed namespace. -/
def argsCustomDir : Args :=
  { source_dir := some "/data", nsParam := some "cex-ns" }

/-- The configuration `argsCustomDir` resolves to. -/
def cfgCustomDir : PlanConfig := { sourceDir := "/data", nsName := "cex-ns" }

/-- A namespace that will be reported as already existing. -/
def argsPreNs : Args := { nsParam := some "pre-ns" }

/-- The configuration `argsPreNs` resolves to. -/
def cfgPreNs : PlanConfig := { nsName := "pre-ns" }

/-- A plain default configuration used for concrete serialization checks. -/
def cfgPlain : PlanConfig := { nsName := "plain-ns" }

/-- A `timeout` argument together with a custom gather command. -/
def argsTimeout : Args :=
  { gather_command := some "/usr/bin/gather_audit_logs"
    timeout := some "30s" }

/-- The configuration `argsTimeout` resolves to (with random suffix
`"abcdef"`). -/
def cfgTimeout : PlanConfig :=
  { nsName := "openshift-must-gather-abcdef"
    gatherCmd := "/usr/bin/timeout 30s /usr/bin/gather_audit_logs"
    timeout := "30s" }

/-- A `must_gather_plan` invocation with `image_stream` and every other
parameter also supplied. -/
def simpleArgsStream : SimpleArgs :=
  { image := some "registry.example.com/custom"
    dest_dir := some "/tmp/out"
    node_name := some "node-1"
    image_stream := some "foo" }

/-! ## Helper lemmas -/

theorem chStarts_append {sub s : List Char} (t : List Char)
    (h : chStarts sub s = true) : chStarts sub (s ++ t) = true := by
  induction sub generalizing s with
  | nil => simp [chStarts]
  | cons a as ih =>
    cases s with
    | nil => simp [chStarts] at h
    | cons b bs =>
      simp only [chStarts, Bool.and_eq_true] at h ⊢
      exact ⟨h.1, ih h.2⟩

theorem chFound_nil (s : List Char) : chFound [] s = true := by
  cases s <;> simp [chFound, chStarts]

theorem chFound_append_right {sub ys : List Char} (xs : List Char)
    (h : chFound sub ys = true) : chFound sub (xs ++ ys) = true := by
  induction xs with
  | nil => simpa using h
  | cons x xs ih =>
    simp only [List.cons_append, chFound, Bool.or_eq_true]
    exact Or.inr ih

theorem chFound_append_left {sub xs : List Char} (ys : List Char)
    (h : chFound sub xs = true) : chFound sub (xs ++ ys) = true := by
  induction xs with
  | nil =>
    cases sub with
    | nil => simpa using chFound_nil ys
    | cons a as => simp [chFound, chStarts] at h
  | cons x xs ih =>
    simp only [chFound, Bool.or_eq_true] at h
    rcases h with h | h
    · simp only [List.cons_append, chFound, Bool.or_eq_true]
      exact Or.inl (chStarts_append ys h)
    · simp only [List.cons_append, chFound, Bool.or_eq_true]
      exact Or.inr (ih h)

theorem strHas_append_left {a sub : String} (b : String)
    (h : strHas a sub = true) : strHas (a ++ b) sub = true := by
  unfold strHas at h ⊢
  rw [String.data_append]
  exact chFound_append_left b.data h

theorem strHas_append_right {b sub : String} (a : String)
    (h : strHas b sub = true) : strHas (a ++ b) sub = true := by
  unfold strHas at h ⊢
  rw [String.data_append]
  exact chFound_append_right a.data h

theorem sliceSet_forall {α : Type} {P : α → Prop} {xs ys : List α} {i : Nat}
    {a : α} (h : sliceSet xs i a = some ys) (hxs : ∀ x ∈ xs, P x)
    (ha : P a) : ∀ y ∈ ys, P y := by
  unfold sliceSet at h
  split at h
  · cases h
    intro y hy
    rcases List.mem_or_eq_of_mem_set hy with h' | rfl
    · exact hxs _ h'
    · exact ha
  · cases h

theorem gcFold_forall {P : Container → Prop} (tmpl : Container)
    (hP : ∀ img, P { tmpl with image := img }) :
    ∀ (l : List (Nat × String)) (acc res : List Container),
      (∀ c ∈ acc, P c) →
      List.foldlM (gcStep tmpl) acc l = some res → ∀ c ∈ res, P c := by
  intro l
  induction l with
  | nil =>
    intro acc res hacc h
    simp only [List.foldlM] at h
    cases h
    exact hacc
  | cons x xs ih =>
    intro acc res hacc h
    simp only [List.foldlM] at h
    cases hstep : gcStep tmpl acc x with
    | none => rw [hstep] at h; simp at h
    | some acc' =>
      rw [hstep] at h
      exact ih acc' res (sliceSet_forall hstep hacc (hP x.2)) h

/-- Inversion of the resolution phase: a successful resolution pins every
field of the resulting configuration. -/
theorem resolvePlanConfig_ok_elim {args : Args} {suffix : String}
    {cfg : PlanConfig} (h : resolvePlanConfig args suffix = .ok cfg) :
    resolveGatherCmd args = .ok cfg.gatherCmd ∧
    resolveSince args = .ok cfg.since ∧
    cfg.nodeName = args.node_name.getD "" ∧
    cfg.hostNetwork = args.host_network.getD false ∧
    cfg.sourceDir = (match args.source_dir with
      | some s => cleanPath s
      | none => defaultGatherSourceDir) ∧
    cfg.nsName = (match args.nsParam with
      | some s => s
      | none => "openshift-must-gather-" ++ suffix) ∧
    cfg.keepNamespace = args.keep_namespace.getD false ∧
    cfg.allImages = args.all_component_images.getD false ∧
    cfg.images = args.images.getD [] ∧
    cfg.timeout = args.timeout.getD "" := by
  unfold resolvePlanConfig at h
  cases hgc : resolveGatherCmd args with
  | error e => rw [hgc] at h; cases h
  | ok gc =>
    rw [hgc] at h
    cases hsc : resolveSince args with
    | error e => rw [hsc] at h; cases h
    | ok sc =>
      rw [hsc] at h
      cases h
      exact ⟨rfl, rfl, rfl, rfl, rfl, rfl, rfl, rfl, rfl, rfl⟩

/-! ## Claim theorems -/

/-- C1: code evaluation at the failing input.  For a two-element `images`
list the claim promises a pod with two gather containers; instead the
slice write `gatherContainers[1]` is out of bounds (the slice was
allocated with `make([]corev1.Container, 1)`) and the invocation panics
before any pod is built. -/
theorem claim1_two_images_panic :
    mustGatherPlan argsTwoImages "abcdef" (.ok []) =
      .crash "runtime error: index out of range" := rfl

/-- C2: code evaluation at the failing input.  Building the gather
containers from a resolved configuration with three images faults (models
the Go index-out-of-range panic), so plan construction is not total. -/
theorem claim2_builder_faults :
    buildGatherContainers cfgThreeImages = none := rfl

/-- C4: any invocation of the `must_gather_plan` tool with a non-empty
`image_stream` is rejected with the hard error directing the caller to
`--image`, before any resource is constructed or any YAML emitted. -/
theorem claim4_image_stream_rejected (args : SimpleArgs) (suffix s : String)
    (h : args.image_stream = some s) (hs : s ≠ "") :
    mustGatherPlanSimple args suffix =
      .goError
        "the --image-stream parameter is not yet supported. Please use the --image parameter" := by
  unfold mustGatherPlanSimple
  rw [h]
  simp only [Option.getD_some]
  rw [if_pos hs]

theorem claim4_witness :
    mustGatherPlanSimple simpleArgsStream "ab1cd" =
      .goError
        "the --image-stream parameter is not yet supported. Please use the --image parameter" :=
  claim4_image_stream_rejected simpleArgsStream "ab1cd" "foo" rfl (by decide)

/-- C6: with an empty resolved `images` list the builder produces exactly
one gather container, carrying the fixed default must-gather image, and the
pod containers are that single gather container plus the wait container;
moreover an absent `images` argument resolves to the empty list. -/
theorem claim6_empty_images_default (cfg : PlanConfig) (h : cfg.images = [])
    (args : Args) (suffix : String) :
    buildGatherContainers cfg = some [gatherContainerTemplate cfg] ∧
    (gatherContainerTemplate cfg).image = defaultMustGatherImage ∧
    (buildPod cfg [gatherContainerTemplate cfg]).spec.containers =
      [gatherContainerTemplate cfg, waitContainer] ∧
    (args.images = none → ∀ cfg', resolvePlanConfig args suffix = .ok cfg' →
      cfg'.images = []) := by
  refine ⟨?_, rfl, rfl, ?_⟩
  · unfold buildGatherContainers
    rw [h]
    rfl
  · intro hn cfg' hres
    have himg := (resolvePlanConfig_ok_elim hres).2.2.2.2.2.2.2.2.1
    rw [himg, hn]
    rfl

theorem claim6_witness :
    buildGatherContainers cfgPlain = some [gatherContainerTemplate cfgPlain] :=
  (claim6_empty_images_default cfgPlain rfl {} "abcdef").1

set_option maxRecDepth 16384 in
/-- C9: the pod descriptor is built with an unpopulated `TypeMeta`, which
the marshal model (json `omitempty`) serializes to nothing, while the
Namespace, ServiceAccount and ClusterRoleBinding descriptors carry explicit
`apiVersion`/`kind` pairs that are serialized verbatim. -/
theorem claim9_typemeta (cfg : PlanConfig) (gcs : List Container)
    (ns : String) :
    (buildPod cfg gcs).typeMeta = ⟨"", ""⟩ ∧
    marshalTypeMeta ⟨"", ""⟩ = "" ∧
    (buildNamespaceObj ns).typeMeta = ⟨"v1", "Namespace"⟩ ∧
    (buildServiceAccount ns).typeMeta = ⟨"v1", "ServiceAccount"⟩ ∧
    (buildClusterRoleBinding ns).typeMeta =
      ⟨"rbac.authorization.k8s.io/v1", "ClusterRoleBinding"⟩ ∧
    marshalTypeMeta ⟨"v1", "Namespace"⟩ = "apiVersion: v1\nkind: Namespace\n" ∧
    marshalTypeMeta ⟨"v1", "ServiceAccount"⟩ =
      "apiVersion: v1\nkind: ServiceAccount\n" ∧
    marshalTypeMeta ⟨"rbac.authorization.k8s.io/v1", "ClusterRoleBinding"⟩ =
      "apiVersion: rbac.authorization.k8s.io/v1\nkind: ClusterRoleBinding\n" ∧
    strHas (marshalPod (buildPod cfgPlain [gatherContainerTemplate cfgPlain]))
      "apiVersion" = false ∧
    strHas (marshalNamespace (buildNamespaceObj "plain-ns")) "kind: Namespace"
      = true := by
  refine ⟨rfl, rfl, rfl, rfl, rfl, rfl, rfl, rfl, ?_, ?_⟩ <;> decide

/-- C10: the command of every gather container is the one-element list holding
the entire resolved gather command string; when `timeout` is supplied the
whole timeout-wrapped string is that single element. -/
theorem claim10_single_command :
    (∀ cfg : PlanConfig,
      (gatherContainerTemplate cfg).command = [cfg.gatherCmd]) ∧
    (∀ (cfg : PlanConfig) (gcs : List Container),
      buildGatherContainers cfg = some gcs →
      ∀ c ∈ gcs, c.command = [cfg.gatherCmd]) ∧
    (∀ (args : Args) (suffix : String) (cfg : PlanConfig) (t : String),
      args.timeout = some t → resolvePlanConfig args suffix = .ok cfg →
      cfg.gatherCmd =
        "/usr/bin/timeout " ++ t ++ " "
          ++ args.gather_command.getD defaultGatherCmd) := by
  refine ⟨fun cfg => rfl, ?_, ?_⟩
  · intro cfg gcs h
    refine gcFold_forall (P := fun c => c.command = [cfg.gatherCmd])
      (gatherContainerTemplate cfg) (fun img => rfl)
      cfg.images.enum [gatherContainerTemplate cfg] gcs ?_ h
    intro c hc
    rw [List.mem_singleton] at hc
    subst hc
    rfl
  · intro args suffix cfg t ht hres
    have hgc := (resolvePlanConfig_ok_elim hres).1
    unfold resolveGatherCmd at hgc
    rw [ht] at hgc
    dsimp only at hgc
    by_cases hok : goParseDurationOk t = true
    · rw [if_pos hok] at hgc
      injection hgc with h2
      exact h2.symm
    · rw [if_neg hok] at hgc
      cases hgc

theorem claim10_witness :
    cfgTimeout.gatherCmd =
      "/usr/bin/timeout " ++ "30s" ++ " "
        ++ argsTimeout.gather_command.getD defaultGatherCmd :=
  claim10_single_command.2.2 argsTimeout "abcdef" cfgTimeout "30s" rfl rfl

/-- C7: a present but unparsable `timeout` makes the invocation return the
error result naming the timeout as invalid, before any resource descriptor
is built or any YAML rendered; an unparsable `since` fails the same way
(after the timeout check, hence the hypothesis that `timeout` is absent or
valid). -/
theorem claim7_bad_durations :
    (∀ (args : Args) (suffix : String) (nsL : Except String (List String))
      (t : String), args.timeout = some t → goParseDurationOk t = false →
      mustGatherPlan args suffix nsL =
        .errResult "timeout duration is not valid") ∧
    (∀ (args : Args) (suffix : String) (nsL : Except String (List String))
      (s : String), args.since = some s → goParseDurationOk s = false →
      (args.timeout = none ∨
        ∃ t, args.timeout = some t ∧ goParseDurationOk t = true) →
      mustGatherPlan args suffix nsL =
        .errResult "since duration is not valid") := by
  constructor
  · intro args suffix nsL t ht hbad
    have hgc : resolveGatherCmd args = .error "timeout duration is not valid" := by
      unfold resolveGatherCmd
      rw [ht]
      dsimp only
      rw [if_neg]
      rw [hbad]
      exact Bool.false_ne_true
    unfold mustGatherPlan resolvePlanConfig
    rw [hgc]
  · intro args suffix nsL s hs hbad htimeout
    have hsc : resolveSince args = .error "since duration is not valid" := by
      unfold resolveSince
      rw [hs]
      dsimp only
      rw [if_neg]
      rw [hbad]
      exact Bool.false_ne_true
    have hgc : ∃ gc, resolveGatherCmd args = .ok gc := by
      unfold resolveGatherCmd
      rcases htimeout with hn | ⟨t, ht, hok⟩
      · rw [hn]
        exact ⟨_, rfl⟩
      · rw [ht]
        dsimp only
        rw [if_pos hok]
        exact ⟨_, rfl⟩
    rcases hgc with ⟨gc, hgc⟩
    unfold mustGatherPlan resolvePlanConfig
    rw [hgc, hsc]

theorem claim7_witness :
    mustGatherPlan { timeout := some "notaduration" } "abcdef" (.ok []) =
      .errResult "timeout duration is not valid" ∧
    mustGatherPlan { since := some "notaduration" } "abcdef" (.ok []) =
      .errResult "since duration is not valid" :=
  ⟨claim7_bad_durations.1 { timeout := some "notaduration" } "abcdef"
      (.ok []) "notaduration" rfl rfl,
   claim7_bad_durations.2 { since := some "notaduration" } "abcdef"
      (.ok []) "notaduration" rfl rfl (Or.inl rfl)⟩

set_option maxRecDepth 16384 in
/-- C5 counterexample: with `source_dir="/data"` the normalized value
`"/data"` is the mount path of the gather containers, but the rendered comment
block does not contain it anywhere: the comments report the fixed path
`/must-gather` (the mount path of the wait container), not the normalized
`source_dir`. -/
theorem claim5_counterexample :
    resolvePlanConfig argsCustomDir "abcdef" = .ok cfgCustomDir ∧
    (gatherContainerTemplate cfgCustomDir).volumeMounts =
      [⟨"must-gather-collection", "/data"⟩] ∧
    strHas (commentHeader cfgCustomDir.nsName
        (clusterRoleBindingName cfgCustomDir.nsName)
        cfgCustomDir.keepNamespace)
      "/data" = false := by
  refine ⟨rfl, rfl, ?_⟩
  decide

/-- C5 amended: a supplied `source_dir` is path-normalized and the
normalized value is the volume-mount path of the gather containers; the rendered
comments never report `source_dir` — they always mention the fixed path
`/must-gather` — and the inputs `"/must-gather/"` and `"/must-gather"`
both normalize to `"/must-gather"`. -/
theorem claim5_amended :
    (∀ (args : Args) (suffix sd : String) (cfg : PlanConfig),
      args.source_dir = some sd → resolvePlanConfig args suffix = .ok cfg →
      cfg.sourceDir = cleanPath sd ∧
      (gatherContainerTemplate cfg).volumeMounts =
        [⟨"must-gather-collection", cleanPath sd⟩]) ∧
    (∀ (ns crb : String) (keep : Bool),
      strHas (commentHeader ns crb keep) "/must-gather" = true) ∧
    cleanPath "/must-gather/" = "/must-gather" ∧
    cleanPath "/must-gather" = "/must-gather" := by
  refine ⟨?_, ?_, by decide, by decide⟩
  · intro args suffix sd cfg hsd hres
    have h := (resolvePlanConfig_ok_elim hres).2.2.2.2.1
    rw [hsd] at h
    exact ⟨h, by rw [show (gatherContainerTemplate cfg).volumeMounts =
      [⟨"must-gather-collection", cfg.sourceDir⟩] from rfl, h]⟩
  · intro ns crb keep
    unfold commentHeader
    apply strHas_append_left
    apply strHas_append_left
    apply strHas_append_right
    decide

theorem claim5_witness :
    cfgCustomDir.sourceDir = cleanPath "/data" :=
  (claim5_amended.1 argsCustomDir "abcdef" "/data" cfgCustomDir rfl rfl).1

set_option maxRecDepth 65536 in
/-- C3: code evaluation at a failing input (namespace `c3-ns`, not
pre-existing, all other parameters default).  The rendered text has the
final subject line of the ClusterRoleBinding document (`namespace: c3-ns`)
immediately followed by the `metadata:` block of the Pod document with no
`---` marker between the two documents — the claimed "every adjacent pair
of emitted documents is separated by `---`" fails there — while the
separator before the ClusterRoleBinding document is present. -/
theorem claim3_missing_separator :
    (mustGatherPlan argsFixedNs "abcdef" (.ok [])).isOk = true ∧
    strHas (mustGatherPlan argsFixedNs "abcdef" (.ok [])).text
      "  namespace: c3-ns\nmetadata:\n  creationTimestamp: null\n  generateName: must-gather-\n"
      = true ∧
    strHas (mustGatherPlan argsFixedNs "abcdef" (.ok [])).text
      "  namespace: c3-ns\n---\nmetadata:" = false ∧
    strHas (mustGatherPlan argsFixedNs "abcdef" (.ok [])).text
      "---\napiVersion: rbac.authorization.k8s.io/v1" = true := by
  refine ⟨rfl, ?_, ?_, ?_⟩ <;> decide

/-- C8: when the listed namespaces contain the resolved namespace name, the
rendered output is exactly the assembly without any Namespace document,
while the ServiceAccount, the ClusterRoleBinding subject and the Pod all
carry that same namespace name. -/
theorem claim8_existing_namespace (args : Args) (suffix : String)
    (names : List String) (cfg : PlanConfig) (gcs : List Container)
    (hres : resolvePlanConfig args suffix = .ok cfg)
    (hgc : buildGatherContainers cfg = some gcs)
    (hex : names.contains cfg.nsName = true) :
    mustGatherPlan args suffix (.ok names) =
      .ok (commentHeader cfg.nsName (clusterRoleBindingName cfg.nsName)
            cfg.keepNamespace
          ++ "```yaml"
          ++ "---\n" ++ marshalServiceAccount (buildServiceAccount cfg.nsName)
          ++ "---\n"
          ++ marshalClusterRoleBinding (buildClusterRoleBinding cfg.nsName)
          ++ marshalPod (buildPod cfg gcs)
          ++ "```") ∧
    (buildServiceAccount cfg.nsName).metadata.nsName = cfg.nsName ∧
    (buildClusterRoleBinding cfg.nsName).subjects =
      [⟨"ServiceAccount", serviceAccountName, cfg.nsName⟩] ∧
    (buildPod cfg gcs).metadata.nsName = cfg.nsName ∧
    (buildNamespaceObj cfg.nsName).metadata.name = cfg.nsName := by
  refine ⟨?_, rfl, rfl, rfl, rfl⟩
  have hplan : mustGatherPlan args suffix (.ok names) =
      .ok (renderPlan cfg (names.contains cfg.nsName) gcs) := by
    unfold mustGatherPlan
    rw [hres]
    dsimp only
    rw [hgc]
  rw [hplan, hex]
  unfold renderPlan
  simp [String.append_empty]

theorem claim8_witness :
    mustGatherPlan argsPreNs "abcdef" (.ok ["pre-ns"]) =
      .ok (commentHeader cfgPreNs.nsName
            (clusterRoleBindingName cfgPreNs.nsName) cfgPreNs.keepNamespace
          ++ "```yaml"
          ++ "---\n"
          ++ marshalServiceAccount (buildServiceAccount cfgPreNs.nsName)
          ++ "---\n"
          ++ marshalClusterRoleBinding (buildClusterRoleBinding cfgPreNs.nsName)
          ++ marshalPod (buildPod cfgPreNs [gatherContainerTemplate cfgPreNs])
          ++ "```") :=
  (claim8_existing_namespace argsPreNs "abcdef" ["pre-ns"] cfgPreNs
    [gatherContainerTemplate cfgPreNs] rfl rfl rfl).1

end MustGather
